import Mathlib

/-!
Shallow embedding of `src/figures/make_video.py`, the PDF → MP4 converter
of AI4SciDisc/roundtable, together with proofs about its behaviour.

Modelling conventions: Python floats carrying durations are rationals;
`int(...)` is truncation toward zero; an in-memory raster is a size plus a
pixel lookup; the external libraries (PyMuPDF, PIL, OpenCV) and the file
system are an explicit `World` record describing what those calls would
return; a list of frames stands for the sequence of `write` calls reaching
the `cv2.VideoWriter`.
-/

/-- Python exception values the script can raise:
`FileNotFoundError` (missing input, line 35), a PyMuPDF failure opening an
unparsable document, `ValueError` (empty page list, line 63), and
`RuntimeError` (`VideoWriter` not opened, line 77). -/
inductive PyError where
  | fileNotFound (msg : String)
  | formatError (msg : String)
  | valueError (msg : String)
  | runtimeError (msg : String)
  deriving DecidableEq

/-- An in-memory raster as PIL produces it: a size plus a pixel lookup
(`pix x y` is the channel triple at column `x`, row `y`).  `gray` records a
single-channel (mode "L") image, whose value is read off the first
component of the triple. -/
structure PageImage where
  gray : Bool
  width : ℕ
  height : ℕ
  pix : ℕ → ℕ → ℕ × ℕ × ℕ

/-- A frame handed to the video writer. -/
abbrev Frame := PageImage

/-- Lines 86-90: `np.array` plus `cv2.cvtColor`.  A 3-channel (RGB) array
has its channel order swapped to BGR (`COLOR_RGB2BGR`); a single-channel
array is expanded to three equal channels (`COLOR_GRAY2BGR`). -/
def toBGR (img : PageImage) : Frame :=
  if img.gray then
    { gray := false, width := img.width, height := img.height,
      pix := fun x y => ((img.pix x y).1, (img.pix x y).1, (img.pix x y).1) }
  else
    { gray := false, width := img.width, height := img.height,
      pix := fun x y => ((img.pix x y).2.2, (img.pix x y).2.1, (img.pix x y).1) }

/-- Python `int(...)` applied to a real value: truncation toward zero. -/
def pyInt (q : ℚ) : ℤ :=
  if 0 ≤ q then ⌊q⌋ else -⌊-q⌋

/-- Lines 69-72: an odd dimension is decremented to the even number just
below it, an even dimension is kept. -/
def evenDown (n : ℕ) : ℕ :=
  if n % 2 = 1 then n - 1 else n

/-- Everything the script observes from its surroundings: the current
working directory (`Path.cwd()`), whether the input path exists, whether
`fitz.open` succeeds on it, what each page renders to at a given dpi (the
rendering matrix scale is `dpi/72`; a page entry may itself raise), whether
the `cv2.VideoWriter` opens, and PIL's LANCZOS resampler
(`img.resize((width, height), ...)`). -/
structure World where
  cwd : String
  pdfExists : Bool
  openOk : Bool
  render : ℤ → List (Except PyError PageImage)
  writerOpens : Bool
  resample : PageImage → ℕ → ℕ → PageImage

/-- Python `str.rfind`-style search: index of the last occurrence of `c`
in `cs`, starting the numbering at `i`. -/
def rfindIdx : List Char → Char → ℕ → Option ℕ
  | [], _, _ => none
  | a :: t, c, i =>
    match rfindIdx t c (i + 1) with
    | some j => some j
    | none => if a = c then some i else none

/-- `pathlib.Path(p).stem`: the final path component without its last
suffix; a suffix exists only when the last dot sits strictly inside the
name (`0 < i < len(name) - 1`). -/
def stem (p : String) : String :=
  let n := (p.splitOn "/").getLastD ""
  match rfindIdx n.toList '.' 0 with
  | some i => if 0 < i ∧ i < n.length - 1 then String.mk (n.toList.take i) else n
  | none => n

/-- The state stored by `PDFToMP4Converter.__init__` (lines 20-35). -/
structure PDFToMP4Converter where
  pdf_path : String
  output_path : String
  duration_per_page : ℚ
  fps : ℚ

/-- Outcome of `convert` (lines 99-106): `success` with the frames written,
or `failure e` — the handler printed the message of `e` and called
`sys.exit(1)`. -/
inductive ConvertResult where
  | success (frames : List Frame)
  | failure (e : PyError)

namespace PDFToMP4Converter

/-- `__init__` (lines 20-35) with the class defaults `duration_per_page=3`,
`fps=30`: store the parameters, default the output path to
`Path.cwd() / (stem + '.mp4')`, then raise `FileNotFoundError` when the
input path does not exist.  Note the check runs in the constructor, before
`convert` and its `try` block. -/
def init (w : World) (pdf_path : String) (output_path : Option String := none)
    (duration_per_page : ℚ := 3) (fps : ℚ := 30) :
    Except PyError PDFToMP4Converter :=
  let out :=
    match output_path with
    | some p => p
    | none => w.cwd ++ "/" ++ (stem pdf_path ++ ".mp4")
  if w.pdfExists then
    .ok { pdf_path := pdf_path, output_path := out,
          duration_per_page := duration_per_page, fps := fps }
  else
    .error (.fileNotFound ("PDF文件不存在: " ++ pdf_path))

/-- The page loop of lines 46-53: render the pages in order, the first
exception raised by a page propagating out of the loop. -/
def renderLoop : List (Except PyError PageImage) → Except PyError (List PageImage)
  | [] => .ok []
  | .error e :: _ => .error e
  | .ok img :: rest =>
    match renderLoop rest with
    | .ok imgs => .ok (img :: imgs)
    | .error e => .error e

/-- `pdf_to_images` (lines 37-56), default `dpi=150`.  Returns the rendered
pages together with a flag recording whether `doc.close()` (line 55)
executed: the close sits after the loop with no `try`/`finally`, so it is
skipped when a page render raises; when `fitz.open` itself fails no
document is opened at all. -/
def pdf_to_images (w : World) (dpi : ℤ := 150) :
    Except PyError (List PageImage) × Bool :=
  if w.openOk then
    match renderLoop (w.render dpi) with
    | .ok imgs => (.ok imgs, true)
    | .error e => (.error e, false)
  else
    (.error (.formatError "cannot open document"), false)

/-- `images_to_video` (lines 58-97).  Raises `ValueError` on an empty page
list (line 62, before any writer exists); takes the target size from the
first page with odd dimensions decremented (lines 66-72); raises
`RuntimeError` when the `VideoWriter` does not open (lines 74-77);
otherwise writes, for each page in order, `int(fps * duration_per_page)`
copies of the resized, BGR-converted page (lines 79-94; Python's `range`
of a negative count is empty, hence `Int.toNat`).  The second component
records whether the `cv2.VideoWriter` constructor (line 75) was reached,
i.e. whether the output file was touched. -/
def images_to_video (w : World) (c : PDFToMP4Converter) (images : List PageImage) :
    Except PyError (List Frame) × Bool :=
  match images with
  | [] => (.error (.valueError "没有图像可以转换为视频"), false)
  | first :: _ =>
    let width := evenDown first.width
    let height := evenDown first.height
    if w.writerOpens then
      let frames_per_page := (pyInt (c.fps * c.duration_per_page)).toNat
      (.ok ((images.map fun img =>
        List.replicate frames_per_page (toBGR (w.resample img width height))).flatten),
       true)
    else
      (.error (.runtimeError "无法创建视频文件"), true)

/-- `convert` (lines 99-106), default `dpi=150`: run the two steps inside a
single `try`/`except Exception`; on any exception print `转换失败: ...` and
call `sys.exit(1)` (the `failure` result).  The boolean is
`images_to_video`'s writer-reached flag. -/
def convert (w : World) (c : PDFToMP4Converter) (dpi : ℤ := 150) :
    ConvertResult × Bool :=
  match pdf_to_images w dpi with
  | (.error e, _) => (.failure e, false)
  | (.ok images, _) =>
    match images_to_video w c images with
    | (.error e, created) => (.failure e, created)
    | (.ok frames, created) => (.success frames, created)

end PDFToMP4Converter

/-- The argparse surface of `main` (lines 110-118) with the CLI defaults:
`--output` optional, `--duration` 0.5, `--fps` 30, `--dpi` 300. -/
structure Args where
  pdf_file : String
  output : Option String := none
  duration : ℚ := 1/2
  fps : ℤ := 30
  dpi : ℤ := 300

/-- The observable outcome of one process run of the script.  An exception
escaping `main` is terminated by the interpreter with exit status 1 (a
traceback, not the converter's printed message); `sys.exit(1)` inside
`convert` gives status 1 with the printed message; success gives status 0.
`writerCreated` records whether the `cv2.VideoWriter` constructor ran
(whether the output file was touched); `frames` is the frame sequence
written on success. -/
structure MainOutcome where
  exitCode : ℕ
  uncaughtError : Option PyError
  caughtMsg : Option PyError
  writerCreated : Bool
  frames : Option (List Frame)

namespace MakeVideo

/-- `main` (lines 109-127): build the converter from the parsed arguments —
outside any `try`, so `__init__`'s `FileNotFoundError` escapes uncaught —
then run `convert(dpi=args.dpi)`. -/
def main (w : World) (args : Args) : MainOutcome :=
  match PDFToMP4Converter.init w args.pdf_file args.output args.duration (args.fps : ℚ) with
  | .error e =>
    { exitCode := 1, uncaughtError := some e, caughtMsg := none,
      writerCreated := false, frames := none }
  | .ok c =>
    match PDFToMP4Converter.convert w c args.dpi with
    | (.failure e, created) =>
      { exitCode := 1, uncaughtError := none, caughtMsg := some e,
        writerCreated := created, frames := none }
    | (.success fs, created) =>
      { exitCode := 0, uncaughtError := none, caughtMsg := none,
        writerCreated := created, frames := some fs }

end MakeVideo

/-! General list facts used to read the frame count and the frame at a
given position off the per-page replication, plus small facts about the
modelled primitives. -/

theorem length_flatten_replicate {α β : Type} (f : α → β) (k : ℕ) :
    ∀ l : List α, ((l.map fun a => List.replicate k (f a)).flatten).length = l.length * k := by
  intro l
  induction l with
  | nil => simp
  | cons a t ih =>
    simp only [List.map_cons, List.flatten_cons, List.length_append,
      List.length_replicate, ih, List.length_cons]
    ring

theorem getElem?_replicate_of_lt {β : Type} (x : β) :
    ∀ (k j : ℕ), j < k → (List.replicate k x)[j]? = some x := by
  intro k
  induction k with
  | zero => intro j hj; omega
  | succ n ih =>
    intro j hj
    cases j with
    | zero => simp [List.replicate]
    | succ m =>
      rw [List.replicate_succ, List.getElem?_cons_succ]
      exact ih m (by omega)

theorem getElem?_flatten_replicate {α β : Type} (f : α → β) (k : ℕ) :
    ∀ (l : List α) (i j : ℕ) (hi : i < l.length), j < k →
      ((l.map fun a => List.replicate k (f a)).flatten)[i * k + j]? =
        some (f (l.get ⟨i, hi⟩)) := by
  intro l
  induction l with
  | nil => intro i j hi hj; simp at hi
  | cons a t ih =>
    intro i j hi hj
    cases i with
    | zero =>
      simp only [List.map_cons, List.flatten_cons, Nat.zero_mul, Nat.zero_add]
      rw [List.getElem?_append, if_pos (by simpa using hj)]
      simpa using getElem?_replicate_of_lt (f a) k j hj
    | succ m =>
      have hmul : (m + 1) * k = m * k + k := Nat.succ_mul m k
      simp only [List.map_cons, List.flatten_cons]
      rw [List.getElem?_append_right (by simp only [List.length_replicate]; omega)]
      have harith : (m + 1) * k + j - (List.replicate k (f a)).length = m * k + j := by
        simp only [List.length_replicate]; omega
      rw [harith, List.get_cons_succ]
      exact ih m j (by simpa using Nat.lt_of_succ_lt_succ hi) hj

theorem flatten_replicate_zero {α β : Type} (f : α → β) :
    ∀ l : List α, ((l.map fun a => List.replicate 0 (f a)).flatten) = [] := by
  intro l
  induction l with
  | nil => rfl
  | cons a t ih => simp [ih]

theorem toBGR_width (img : PageImage) : (toBGR img).width = img.width := by
  unfold toBGR; split <;> rfl

theorem toBGR_height (img : PageImage) : (toBGR img).height = img.height := by
  unfold toBGR; split <;> rfl

theorem pyInt_of_nonneg {q : ℚ} (h : 0 ≤ q) : pyInt q = ⌊q⌋ := if_pos h

theorem evenDown_even (n : ℕ) : evenDown n % 2 = 0 := by
  unfold evenDown; split <;> omega

/-! Concrete pages, worlds and argument records used to exercise the
theorems on closed inputs. -/

/-- A concrete 5 × 7 RGB raster (odd dimensions on purpose). -/
def pageA : PageImage :=
  { gray := false, width := 5, height := 7, pix := fun _ _ => (10, 20, 30) }

/-- A concrete dimension-preserving resampler standing in for PIL resize:
it stretches the pixel lookup of the source into the requested size. -/
def resampleA (img : PageImage) (a b : ℕ) : PageImage :=
  { img with width := a, height := b }

/-- A world in which everything succeeds: the input exists, parses as a
one-page document at every dpi, and the writer opens. -/
def worldOk : World :=
  { cwd := "/work", pdfExists := true, openOk := true,
    render := fun _ => [.ok pageA], writerOpens := true, resample := resampleA }

/-- A fixed converter state: fps 2, one second per page. -/
def convA : PDFToMP4Converter :=
  { pdf_path := "a.pdf", output_path := "/work/a.mp4",
    duration_per_page := 1, fps := 2 }

/-- The frames the successful one-page run with `convA` writes. -/
def framesA : List Frame := List.replicate 2 (toBGR (resampleA pageA 4 6))

/-- C1: for a document with at least one page and positive fps and
per-page duration, `images_to_video` writes exactly
`N * ⌊fps * duration_per_page⌋` frames, and the frame at position
`i * fpp + j` (`j < fpp`) is the one frame made from page `i` — so each
page contributes exactly `⌊fps * duration_per_page⌋` identical frames, in
page order, all repeats of page `i` preceding every frame of
page `i + 1`. -/
theorem c1_frame_count_and_order (w : World) (c : PDFToMP4Converter)
    (first : PageImage) (rest : List PageImage) (frames : List Frame)
    (hfps : 0 < c.fps) (hdur : 0 < c.duration_per_page)
    (hok : (PDFToMP4Converter.images_to_video w c (first :: rest)).1 = .ok frames) :
    (frames.length : ℤ) = (first :: rest).length * ⌊c.fps * c.duration_per_page⌋
    ∧ ∀ (i j : ℕ) (hi : i < (first :: rest).length),
        j < (⌊c.fps * c.duration_per_page⌋).toNat →
        frames[i * (⌊c.fps * c.duration_per_page⌋).toNat + j]? =
          some (toBGR (w.resample ((first :: rest).get ⟨i, hi⟩)
            (evenDown first.width) (evenDown first.height))) := by
  have hq : 0 < c.fps * c.duration_per_page := mul_pos hfps hdur
  have hfl : 0 ≤ ⌊c.fps * c.duration_per_page⌋ := Int.floor_nonneg.mpr hq.le
  cases hw : w.writerOpens with
  | false => simp [PDFToMP4Converter.images_to_video, hw] at hok
  | true =>
    simp only [PDFToMP4Converter.images_to_video, hw, if_true,
      pyInt_of_nonneg hq.le] at hok
    rw [Except.ok.injEq] at hok
    subst hok
    refine ⟨?_, ?_⟩
    · rw [length_flatten_replicate]
      push_cast [Int.toNat_of_nonneg hfl]
      ring
    · intro i j hi hj
      exact getElem?_flatten_replicate _ _ (first :: rest) i j hi hj

/-- Witness for C1: the concrete one-page run with fps 2 and one second
per page writes `1 * ⌊2 * 1⌋ = 2` frames. -/
theorem c1_witness :
    (framesA.length : ℤ) =
      (pageA :: ([] : List PageImage)).length * ⌊convA.fps * convA.duration_per_page⌋ :=
  (c1_frame_count_and_order worldOk convA pageA [] framesA
    (by norm_num [convA]) (by norm_num [convA])
    (by simp only [PDFToMP4Converter.images_to_video]
        norm_num [worldOk, convA, pyInt, framesA, resampleA, pageA, evenDown]
        all_goals decide)).1

/-- C2: the target size is computed from the first page alone, odd
dimensions decremented by one; every produced frame carries exactly that
size (every page is resized to it), and both target dimensions are even —
also when the source page dimensions are odd. -/
theorem c2_even_uniform_size (w : World) (c : PDFToMP4Converter)
    (first : PageImage) (rest : List PageImage) (frames : List Frame)
    (hres : ∀ img a b, (w.resample img a b).width = a ∧ (w.resample img a b).height = b)
    (hok : (PDFToMP4Converter.images_to_video w c (first :: rest)).1 = .ok frames) :
    (∀ fr ∈ frames, fr.width = evenDown first.width ∧ fr.height = evenDown first.height)
    ∧ evenDown first.width % 2 = 0 ∧ evenDown first.height % 2 = 0 := by
  cases hw : w.writerOpens with
  | false => simp [PDFToMP4Converter.images_to_video, hw] at hok
  | true =>
    simp only [PDFToMP4Converter.images_to_video, hw, if_true] at hok
    rw [Except.ok.injEq] at hok
    subst hok
    refine ⟨?_, evenDown_even _, evenDown_even _⟩
    intro fr hfr
    rw [List.mem_flatten] at hfr
    obtain ⟨l, hl, hfl⟩ := hfr
    rw [List.mem_map] at hl
    obtain ⟨img, _, rfl⟩ := hl
    obtain rfl := List.eq_of_mem_replicate hfl
    rw [toBGR_width, toBGR_height]
    exact ⟨(hres img _ _).1, (hres img _ _).2⟩

/-- Witness for C2 at the concrete one-page run: the 5 × 7 page yields an
even 4 × 6 target. -/
theorem c2_witness :
    evenDown pageA.width % 2 = 0 ∧ evenDown pageA.height % 2 = 0 :=
  (c2_even_uniform_size worldOk convA pageA [] framesA
    (fun _ _ _ => ⟨rfl, rfl⟩)
    (by simp only [PDFToMP4Converter.images_to_video]
        norm_num [worldOk, convA, pyInt, framesA, resampleA, pageA, evenDown]
        all_goals decide)).2

/-- The CLI argument record with only the input path given, every other
flag left at its default. -/
def argsA : Args := { pdf_file := "a.pdf" }

/-- A world whose input path does not exist. -/
def worldMissing : World := { worldOk with pdfExists := false }

/-- C3 as stated fails: with a missing input path the `FileNotFoundError`
raised by `__init__` (line 35) is thrown before `convert` and its `try`
block ever run — it escapes `main` uncaught and is never converted to the
printed failure message. -/
theorem c3_counterexample :
    (MakeVideo.main worldMissing argsA).uncaughtError ≠ none
    ∧ (MakeVideo.main worldMissing argsA).caughtMsg = none := by
  constructor
  · simp [MakeVideo.main, PDFToMP4Converter.init, worldMissing, worldOk]
  · rfl

/-- C3 amended: when the input path exists, every exception a sub-step of
`convert` raises (unparsable document, page-render failure, empty page
list, writer failure) is caught exactly once by the top-level handler,
surfaced as the printed message, and mapped to exit status 1; none escapes
uncaught, and exit status 0 arises exactly when nothing was caught.  Only
the missing-input check of `__init__` sits outside this net
(`c3_counterexample`). -/
theorem c3_amended (w : World) (args : Args) (h : w.pdfExists = true) :
    (MakeVideo.main w args).uncaughtError = none
    ∧ ((MakeVideo.main w args).exitCode = 1 ↔
        ∃ e, (MakeVideo.main w args).caughtMsg = some e)
    ∧ ((MakeVideo.main w args).exitCode = 0 ↔
        (MakeVideo.main w args).caughtMsg = none) := by
  simp only [MakeVideo.main, PDFToMP4Converter.init, h, reduceIte]
  split <;> simp

/-- Witness for the amended C3 at a concrete successful run. -/
theorem c3_witness : (MakeVideo.main worldOk argsA).uncaughtError = none :=
  (c3_amended worldOk argsA rfl).1

/-- A world whose only page raises during rendering. -/
def worldBadPage : World :=
  { worldOk with render := fun _ => [.error (.runtimeError "render failed")] }

/-- C4 as stated fails: with a page that raises during rendering the
document was opened (`fitz.open` succeeded) yet `doc.close()` never runs —
line 55 sits after the loop with no `finally`. -/
theorem c4_counterexample :
    worldBadPage.openOk = true
    ∧ (PDFToMP4Converter.pdf_to_images worldBadPage 150).2 = false :=
  ⟨rfl, rfl⟩

/-- C4 amended: when the document opens, `doc.close()` runs iff every page
renders without raising; a mid-render exception propagates and skips the
close. -/
theorem c4_amended (w : World) (dpi : ℤ) (h : w.openOk = true) :
    (PDFToMP4Converter.pdf_to_images w dpi).2 = true
      ↔ ∃ imgs, PDFToMP4Converter.renderLoop (w.render dpi) = .ok imgs := by
  simp only [PDFToMP4Converter.pdf_to_images, h, reduceIte]
  cases hr : PDFToMP4Converter.renderLoop (w.render dpi) with
  | ok imgs => simp
  | error e => simp

/-- Witness for the amended C4: in the all-good world the document is
closed. -/
theorem c4_witness : (PDFToMP4Converter.pdf_to_images worldOk 150).2 = true :=
  (c4_amended worldOk 150 rfl).mpr ⟨[pageA], rfl⟩

/-- C5: with a non-existing input path the run raises `FileNotFoundError`
(the NotFoundError equivalent), the process ends with exit status 1 (the
interpreter terminates on the uncaught exception), and the video writer
was never constructed, so nothing was created at the output path. -/
theorem c5_missing_input (w : World) (args : Args) (h : w.pdfExists = false) :
    MakeVideo.main w args =
      { exitCode := 1,
        uncaughtError := some (.fileNotFound ("PDF文件不存在: " ++ args.pdf_file)),
        caughtMsg := none, writerCreated := false, frames := none } := by
  simp [MakeVideo.main, PDFToMP4Converter.init, h]

/-- Witness for C5 at the concrete missing-file world. -/
theorem c5_witness :
    MakeVideo.main worldMissing argsA =
      { exitCode := 1,
        uncaughtError := some (.fileNotFound ("PDF文件不存在: " ++ argsA.pdf_file)),
        caughtMsg := none, writerCreated := false, frames := none } :=
  c5_missing_input worldMissing argsA rfl

/-- A world whose document parses but has zero pages. -/
def worldEmpty : World := { worldOk with render := fun _ => [] }

/-- C6: a zero-page document makes `images_to_video` raise the
`ValueError` of line 62 before the `VideoWriter` is ever constructed;
`convert` catches it, prints it, and the run exits with status 1. -/
theorem c6_empty_pdf (w : World) (args : Args)
    (h1 : w.pdfExists = true) (h2 : w.openOk = true) (h3 : w.render args.dpi = []) :
    MakeVideo.main w args =
      { exitCode := 1, uncaughtError := none,
        caughtMsg := some (.valueError "没有图像可以转换为视频"),
        writerCreated := false, frames := none } := by
  simp [MakeVideo.main, PDFToMP4Converter.init, PDFToMP4Converter.convert,
        PDFToMP4Converter.pdf_to_images, PDFToMP4Converter.renderLoop,
        PDFToMP4Converter.images_to_video, h1, h2, h3]

/-- Witness for C6 at the concrete zero-page world. -/
theorem c6_witness :
    MakeVideo.main worldEmpty argsA =
      { exitCode := 1, uncaughtError := none,
        caughtMsg := some (.valueError "没有图像可以转换为视频"),
        writerCreated := false, frames := none } :=
  c6_empty_pdf worldEmpty argsA rfl rfl rfl

theorem flatten_map_nil {α β : Type} (l : List α) :
    (l.map fun _ => ([] : List β)).flatten = [] := by
  induction l with
  | nil => rfl
  | cons a t ih => simp [ih]

/-- CLI arguments that violate the positivity invariant everywhere:
duration −1 s, fps 0, dpi 0 — argparse accepts all three. -/
def argsBad : Args := { pdf_file := "a.pdf", duration := -1, fps := 0, dpi := 0 }

/-- C7 as stated fails: nothing in the program validates the parameters —
a run with duration −1, fps 0 and dpi 0 still performs the conversion and
exits 0 (writing zero frames). -/
theorem c7_counterexample :
    (MakeVideo.main worldOk argsBad).exitCode = 0
    ∧ (MakeVideo.main worldOk argsBad).frames = some []
    ∧ argsBad.duration ≤ 0 ∧ argsBad.fps ≤ 0 ∧ argsBad.dpi ≤ 0 := by
  have h0 : pyInt ((argsBad.fps : ℚ) * argsBad.duration) = 0 := by
    norm_num [pyInt, argsBad]
  refine ⟨?_, ?_, by norm_num [argsBad], by norm_num [argsBad], by norm_num [argsBad]⟩
  all_goals
    simp [MakeVideo.main, PDFToMP4Converter.init, PDFToMP4Converter.convert,
      PDFToMP4Converter.pdf_to_images, PDFToMP4Converter.renderLoop,
      PDFToMP4Converter.images_to_video, worldOk, h0, flatten_map_nil]

/-- C7 amended: the program enforces no positivity invariant on duration,
fps or dpi; whenever the input exists, parses with at least one page and
the writer opens, the conversion executes and exits 0 for arbitrary —
also non-positive — parameter values.  Only the built-in defaults happen
to be positive. -/
theorem c7_amended (w : World) (args : Args) (first : PageImage) (rest : List PageImage)
    (h1 : w.pdfExists = true) (h2 : w.openOk = true)
    (h3 : PDFToMP4Converter.renderLoop (w.render args.dpi) = .ok (first :: rest))
    (h4 : w.writerOpens = true) :
    (MakeVideo.main w args).exitCode = 0
    ∧ (MakeVideo.main w args).uncaughtError = none
    ∧ (MakeVideo.main w args).caughtMsg = none
    ∧ (MakeVideo.main w args).frames ≠ none := by
  simp [MakeVideo.main, PDFToMP4Converter.init, PDFToMP4Converter.convert,
    PDFToMP4Converter.pdf_to_images, PDFToMP4Converter.images_to_video,
    h1, h2, h3, h4]

/-- Witness for the amended C7: the conversion runs to success even with
the all-non-positive `argsBad`. -/
theorem c7_witness : (MakeVideo.main worldOk argsBad).exitCode = 0 :=
  (c7_amended worldOk argsBad pageA [] rfl rfl rfl rfl).1

/-- CLI arguments whose per-page duration is 0, written frames none. -/
def argsZero : Args := { pdf_file := "a.pdf", duration := 0 }

theorem main_argsZero_frames :
    (MakeVideo.main worldOk argsZero).frames = some [] := by
  have h0 : pyInt ((argsZero.fps : ℚ) * argsZero.duration) = 0 := by
    norm_num [pyInt, argsZero]
  simp [MakeVideo.main, PDFToMP4Converter.init, PDFToMP4Converter.convert,
    PDFToMP4Converter.pdf_to_images, PDFToMP4Converter.renderLoop,
    PDFToMP4Converter.images_to_video, worldOk, h0, flatten_map_nil]

/-- C8: the frame pipeline is deterministic — two runs of `main` on the
same world and the same flags that both report written frames report the
same frame count and the same frame at every index.  The embedding is a
pure function of its inputs, mirroring the absence of randomness or
time-dependence in the script's frame path. -/
theorem c8_deterministic (w : World) (args : Args) (f1 f2 : List Frame)
    (h1 : (MakeVideo.main w args).frames = some f1)
    (h2 : (MakeVideo.main w args).frames = some f2) :
    f1.length = f2.length ∧ ∀ i : ℕ, f1[i]? = f2[i]? := by
  rw [h1, Option.some.injEq] at h2
  subst h2
  exact ⟨rfl, fun _ => rfl⟩

/-- Witness for C8 at a concrete run executed twice. -/
theorem c8_witness : ([] : List Frame).length = ([] : List Frame).length :=
  (c8_deterministic worldOk argsZero [] [] main_argsZero_frames main_argsZero_frames).1

/-- C9: default drift between the layers — the class defaults are
3 s per page and fps 30 with dpi 150 defaulted by `convert` and
`pdf_to_images`, while the CLI layer defaults are 0.5 s, fps 30, dpi 300;
with no output flag the output path defaults to `<cwd>/<stem>.mp4`. -/
theorem c9_default_drift (w : World) (p : String) (h : w.pdfExists = true) :
    PDFToMP4Converter.init w p =
      .ok { pdf_path := p, output_path := w.cwd ++ "/" ++ (stem p ++ ".mp4"),
            duration_per_page := 3, fps := 30 }
    ∧ ({ pdf_file := p } : Args).duration = 1/2
    ∧ ({ pdf_file := p } : Args).fps = 30
    ∧ ({ pdf_file := p } : Args).dpi = 300
    ∧ ({ pdf_file := p } : Args).output = none
    ∧ ({ pdf_file := p } : Args).duration ≠ (3 : ℚ)
    ∧ ({ pdf_file := p } : Args).dpi ≠ (150 : ℤ)
    ∧ (∀ (w2 : World) (c : PDFToMP4Converter),
        PDFToMP4Converter.convert w2 c = PDFToMP4Converter.convert w2 c 150)
    ∧ (∀ w2 : World, PDFToMP4Converter.pdf_to_images w2 = PDFToMP4Converter.pdf_to_images w2 150) := by
  refine ⟨?_, rfl, rfl, rfl, rfl, by norm_num, by norm_num,
    fun _ _ => rfl, fun _ => rfl⟩
  simp [PDFToMP4Converter.init, h]

/-- Witness for C9: the defaulted constructor call on a concrete path. -/
theorem c9_witness :
    PDFToMP4Converter.init worldOk "doc.pdf" =
      .ok { pdf_path := "doc.pdf",
            output_path := worldOk.cwd ++ "/" ++ (stem "doc.pdf" ++ ".mp4"),
            duration_per_page := 3, fps := 30 } :=
  (c9_default_drift worldOk "doc.pdf" rfl).1

/-- CLI arguments with fps 30 (default) and duration 0.01 s: the per-page
repeat count `int(30 * 0.01)` truncates to 0. -/
def argsTiny : Args := { pdf_file := "a.pdf", duration := 1/100 }

/-- C10: when `0 < fps * duration_per_page < 1` the per-page repeat count
truncates to 0, so the run writes zero frames, yet it still completes
successfully — writer constructed, nothing caught, exit status 0. -/
theorem c10_zero_frames (w : World) (args : Args) (first : PageImage) (rest : List PageImage)
    (h1 : w.pdfExists = true) (h2 : w.openOk = true)
    (h3 : PDFToMP4Converter.renderLoop (w.render args.dpi) = .ok (first :: rest))
    (h4 : w.writerOpens = true)
    (h5 : 0 < (args.fps : ℚ) * args.duration)
    (h6 : (args.fps : ℚ) * args.duration < 1) :
    MakeVideo.main w args =
      { exitCode := 0, uncaughtError := none, caughtMsg := none,
        writerCreated := true, frames := some [] } := by
  have h0 : pyInt ((args.fps : ℚ) * args.duration) = 0 := by
    rw [pyInt_of_nonneg h5.le]
    exact Int.floor_eq_zero_iff.mpr (Set.mem_Ico.mpr ⟨h5.le, h6⟩)
  simp [MakeVideo.main, PDFToMP4Converter.init, PDFToMP4Converter.convert,
    PDFToMP4Converter.pdf_to_images, PDFToMP4Converter.images_to_video,
    h1, h2, h3, h4, h0, flatten_map_nil]

/-- Witness for C10: fps 30 with duration 0.01 s writes zero frames and
exits 0. -/
theorem c10_witness :
    MakeVideo.main worldOk argsTiny =
      { exitCode := 0, uncaughtError := none, caughtMsg := none,
        writerCreated := true, frames := some [] } :=
  c10_zero_frames worldOk argsTiny pageA [] rfl rfl rfl rfl
    (by norm_num [argsTiny]) (by norm_num [argsTiny])
